import Mathlib

/-!
Verification development for the phonicsflyer-backend repository.

The repository consists of two near-duplicate Express backends found in
server.js: revision 1 keeps registrations in in-process maps, revision 2
keys everything by the authenticated Firebase uid and stores records in a
Firebase Realtime Database.  Both revisions expose registration, order
creation, payment confirmation (client callback and Razorpay webhook) and
a payment-status poll, and send a pair of confirmation emails on payment.

This file shallowly embeds the data model and the handlers the claims
touch.  External collaborators (Node's crypto HMAC, the Razorpay gateway,
Firebase auth profiles, the mail transport, Date.now) are modelled as
explicit parameters or output events; every piece of control flow and
state mutation is translated from server.js.  JSON.parse / JSON.stringify
are modelled by an executable JSON parser and printer below, because the
webhook handlers' observable behaviour (which bytes get signature-checked,
what happens on malformed bodies) depends on them.
-/

/-- JSON values as produced by JSON.parse.  Numeric literals keep their
source lexeme: none of the payload fields the handlers read are numbers,
so numeral normalisation never matters for the embedded code paths.
Object fields keep source order, as JS objects do. -/
inductive Json where
  | null
  | bool (b : Bool)
  | num (lexeme : String)
  | str (s : String)
  | arr (elems : List Json)
  | obj (fields : List (String × Json))

/-- The opening-brace character, written via its code point. -/
def lbrace : Char := Char.ofNat 123

/-- The closing-brace character, written via its code point. -/
def rbrace : Char := Char.ofNat 125

/-- Whitespace skipped by JSON.parse between tokens. -/
def skipWs : List Char → List Char
  | c :: cs => if c = ' ' ∨ c = '\n' ∨ c = '\t' ∨ c = '\r' then skipWs cs else c :: cs
  | [] => []

/-- Decode a single-character JSON escape (the handlers' payloads use no
unicode escapes, which this model rejects). -/
def escDecode (c : Char) : Option Char :=
  if c = '"' then some '"'
  else if c = '\\' then some '\\'
  else if c = '/' then some '/'
  else if c = 'n' then some '\n'
  else if c = 't' then some '\t'
  else if c = 'r' then some '\r'
  else if c = 'b' then some (Char.ofNat 8)
  else if c = 'f' then some (Char.ofNat 12)
  else none

/-- Scan a JSON string body after the opening quote, returning the decoded
characters and the remaining input. -/
def scanStr (acc : List Char) : List Char → Option (List Char × List Char)
  | [] => none
  | c :: cs =>
    if c = '"' then some (acc.reverse, cs)
    else if c = '\\' then
      match cs with
      | [] => none
      | e :: cs' =>
        match escDecode e with
        | some d => scanStr (d :: acc) cs'
        | none => none
    else scanStr (c :: acc) cs

/-- Characters that may occur in a JSON numeric literal. -/
def isNumChar (c : Char) : Bool :=
  c.isDigit || c = '-' || c = '+' || c = '.' || c = 'e' || c = 'E'

/-- Digit run at the front of the input. -/
def takeDigits (cs : List Char) : List Char × List Char :=
  match cs with
  | c :: rest => if c.isDigit then
      let (ds, r) := takeDigits rest
      (c :: ds, r)
    else ([], cs)
  | [] => ([], [])

/-- Validity of a JSON numeric lexeme: optional minus, integer part,
optional fraction, optional exponent. -/
def validNum (cs : List Char) : Bool :=
  let afterSign := match cs with
    | c :: rest => if c = '-' then rest else cs
    | [] => []
  let (intPart, r1) := takeDigits afterSign
  if intPart.isEmpty then false else
  let r2 := match r1 with
    | c :: rest =>
      if c = '.' then
        let (frac, r) := takeDigits rest
        if frac.isEmpty then ['.'] else r
      else r1
    | [] => []
  if r2 = ['.'] then false else
  match r2 with
  | [] => true
  | c :: rest =>
    if c = 'e' ∨ c = 'E' then
      let afterExpSign := match rest with
        | d :: rest' => if d = '-' ∨ d = '+' then rest' else rest
        | [] => []
      let (ex, r3) := takeDigits afterExpSign
      (!ex.isEmpty) && r3.isEmpty
    else false

/-- Longest numeric-character run at the front of the input. -/
def takeNum (cs : List Char) : List Char × List Char :=
  match cs with
  | c :: rest => if isNumChar c then
      let (ds, r) := takeNum rest
      (c :: ds, r)
    else ([], cs)
  | [] => ([], [])

mutual

/-- Recursive-descent JSON value parse, fuelled; models JSON.parse. -/
def parseVal : Nat → List Char → Option (Json × List Char)
  | 0, _ => none
  | fuel + 1, input =>
    match skipWs input with
    | [] => none
    | c :: cs =>
      if c = 'n' then
        match cs with
        | 'u' :: 'l' :: 'l' :: rest => some (.null, rest)
        | _ => none
      else if c = 't' then
        match cs with
        | 'r' :: 'u' :: 'e' :: rest => some (.bool true, rest)
        | _ => none
      else if c = 'f' then
        match cs with
        | 'a' :: 'l' :: 's' :: 'e' :: rest => some (.bool false, rest)
        | _ => none
      else if c = '"' then
        match scanStr [] cs with
        | some (body, rest) => some (.str (String.mk body), rest)
        | none => none
      else if c = '[' then
        match skipWs cs with
        | ']' :: rest => some (.arr [], rest)
        | other => parseElems fuel other []
      else if c = lbrace then
        match skipWs cs with
        | d :: rest =>
          if d = rbrace then some (.obj [], rest)
          else parseFields fuel (d :: rest) []
        | [] => none
      else if c = '-' ∨ c.isDigit then
        let (lit, rest) := takeNum (c :: cs)
        if validNum lit then some (.num (String.mk lit), rest) else none
      else none

/-- Comma-separated array elements up to the closing bracket. -/
def parseElems : Nat → List Char → List Json → Option (Json × List Char)
  | 0, _, _ => none
  | fuel + 1, input, acc =>
    match parseVal fuel input with
    | none => none
    | some (v, rest) =>
      match skipWs rest with
      | ',' :: rest' => parseElems fuel rest' (v :: acc)
      | ']' :: rest' => some (.arr (v :: acc).reverse, rest')
      | _ => none

/-- Comma-separated object members up to the closing brace. -/
def parseFields : Nat → List Char → List (String × Json) → Option (Json × List Char)
  | 0, _, _ => none
  | fuel + 1, input, acc =>
    match skipWs input with
    | '"' :: cs =>
      match scanStr [] cs with
      | none => none
      | some (k, rest) =>
        match skipWs rest with
        | ':' :: rest' =>
          match parseVal fuel rest' with
          | none => none
          | some (v, rest2) =>
            match skipWs rest2 with
            | ',' :: rest3 => parseFields fuel rest3 ((String.mk k, v) :: acc)
            | d :: rest3 =>
              if d = rbrace then some (.obj ((String.mk k, v) :: acc).reverse, rest3)
              else none
            | [] => none
        | _ => none
    | _ => none

end

/-- JSON.parse: parse a full document, requiring only trailing whitespace
after the value. -/
def parseJson (s : String) : Option Json :=
  match parseVal (2 * s.length + 8) s.data with
  | some (j, rest) => if (skipWs rest).isEmpty then some j else none
  | none => none

/-- Escape one character for JSON string output, as JSON.stringify does. -/
def escEncode (c : Char) : List Char :=
  if c = '"' then ['\\', '"']
  else if c = '\\' then ['\\', '\\']
  else if c = '\n' then ['\\', 'n']
  else if c = '\t' then ['\\', 't']
  else if c = '\r' then ['\\', 'r']
  else if c = Char.ofNat 8 then ['\\', 'b']
  else if c = Char.ofNat 12 then ['\\', 'f']
  else [c]

/-- Quote and escape a string for JSON output. -/
def quoteStr (s : String) : String :=
  "\"" ++ String.mk (List.flatten (s.data.map escEncode)) ++ "\""

mutual

/-- JSON.stringify: canonical printing with no inserted whitespace,
fields in stored (insertion) order. -/
def stringifyJson : Json → String
  | .null => "null"
  | .bool true => "true"
  | .bool false => "false"
  | .num l => l
  | .str s => quoteStr s
  | .arr xs => "[" ++ stringifyElems xs ++ "]"
  | .obj fs => "\x7b" ++ stringifyMembers fs ++ "\x7d"

/-- Comma-join of printed array elements. -/
def stringifyElems : List Json → String
  | [] => ""
  | [x] => stringifyJson x
  | x :: y :: rest => stringifyJson x ++ "," ++ stringifyElems (y :: rest)

/-- Comma-join of printed object members. -/
def stringifyMembers : List (String × Json) → String
  | [] => ""
  | [(k, v)] => quoteStr k ++ ":" ++ stringifyJson v
  | (k, v) :: m :: rest => quoteStr k ++ ":" ++ stringifyJson v ++ "," ++ stringifyMembers (m :: rest)

end

/-- Last-occurrence lookup of a key among a JS object's fields (on
duplicate keys, JSON.parse keeps the last occurrence). -/
def jLookup (fs : List (String × Json)) (k : String) : Option Json :=
  (fs.reverse.find? (fun kv => kv.1 == k)).map (fun kv => kv.2)

/-- One JS member access, propagating exceptions: reading a property of
undefined or null throws (the handlers' try/catch then takes over);
reading a missing property of an object yields undefined (modelled none);
property reads on primitives and arrays yield undefined for the keys the
handlers use. -/
def jStep : Except Unit (Option Json) → String → Except Unit (Option Json)
  | .error (), _ => .error ()
  | .ok none, _ => .error ()
  | .ok (some .null), _ => .error ()
  | .ok (some (.obj fs)), k => .ok (jLookup fs k)
  | .ok (some _), _ => .ok none

/-- Whether a JS value (possibly undefined) is the given string. -/
def isStrVal (o : Option Json) (s : String) : Bool :=
  match o with
  | some (.str t) => t == s
  | _ => false

/-- JS strict equality between a stored orderId (string or undefined) and
a payload field (JSON value or undefined): undefined === undefined is
true, strings compare by value, any other combination is false. -/
def jsEqStrJ (stored : Option String) (j : Option Json) : Bool :=
  match stored, j with
  | none, none => true
  | some s, some (.str t) => s == t
  | _, _ => false

/-- Coerce a payload field to the string stored/mailed by the handlers;
Razorpay ids are strings, so non-string values never reach these paths. -/
def asStr (o : Option Json) : Option String :=
  match o with
  | some (.str t) => some t
  | _ => none

/-- Type of the external HMAC-SHA256 primitive from Node's crypto module:
secret and message to hex digest.  It is an external collaborator, so the
embedding takes it as a parameter. -/
abbrev Hmac := String → String → String

/-- Short-circuit character-by-character string comparison, the behaviour
underlying the JS string equality operator used by the source: it stops
at the first differing character. -/
def jsEqChars : List Char → List Char → Bool
  | [], [] => true
  | [], _ :: _ => false
  | _ :: _, [] => false
  | a :: as, b :: bs => if a = b then jsEqChars as bs else false

/-- Number of character comparisons the short-circuit equality performs:
a cost model for the comparison inside verifyRazorpaySignature. -/
def jsEqSteps : List Char → List Char → Nat
  | [], _ => 0
  | _ :: _, [] => 0
  | a :: as, b :: bs => if a = b then 1 + jsEqSteps as bs else 1

/-- verifyRazorpaySignature from server.js: recompute
HMAC-SHA256(secret, orderId ++ "|" ++ paymentId) and compare to the
purported signature with plain string equality.  The source closes over
RAZORPAY_KEY_SECRET; here secret and the crypto primitive are explicit. -/
def verifyRazorpaySignature (hmac : Hmac) (secret orderId paymentId signature : String) : Bool :=
  jsEqChars (hmac secret (orderId ++ "|" ++ paymentId)).data signature.data

/-- Comparison cost of one verifyRazorpaySignature call under the
short-circuit cost model. -/
def verifySignatureCost (hmac : Hmac) (secret orderId paymentId signature : String) : Nat :=
  jsEqSteps (hmac secret (orderId ++ "|" ++ paymentId)).data signature.data

/-- JS truthiness of an optional header or environment string: absent and
empty strings are falsy. -/
def truthyS : Option String → Bool
  | none => false
  | some s => !(s == "")

/-- The webhook signature gate shared by both revisions (server.js lines
326-342 and 853-869): reject with 401 exactly when the x-razorpay-signature
header is truthy, the RAZORPAY_WEBHOOK_SECRET environment value is truthy,
and the recomputed digest of the message differs from the header. -/
def sigGateRejects (hmac : Hmac) (header webhookSecret : Option String) (message : String) : Bool :=
  match header, webhookSecret with
  | some h, some w =>
    if h = "" then false
    else if w = "" then false
    else !(jsEqChars (hmac w message).data h.data)
  | _, _ => false

/-- Association-list lookup modelling Map.get / a Firebase child read. -/
def mapGet {α : Type} : List (String × α) → String → Option α
  | [], _ => none
  | (k', v) :: rest, k => if k' == k then some v else mapGet rest k

/-- Association-list write modelling Map.set / a Firebase child write:
replace in place if the key exists (JS Maps keep the original insertion
position), else append. -/
def mapSet {α : Type} (m : List (String × α)) (k : String) (v : α) : List (String × α) :=
  match m with
  | [] => [(k, v)]
  | (k', v') :: rest => if k' == k then (k, v) :: rest else (k', v') :: mapSet rest k v

/-- Set.add on a JS Set kept as an insertion-ordered list. -/
def setAdd (s : List String) (k : String) : List String :=
  if s.contains k then s else s ++ [k]

/-- Hex digit characters 0-9a-f, as Buffer.toString('hex') emits. -/
def hexDigit (n : Nat) : Char :=
  if n < 10 then Char.ofNat (48 + n) else Char.ofNat (87 + n)

/-- Two-character hex encoding of one byte. -/
def byteToHex (b : Nat) : List Char :=
  [hexDigit (b / 16), hexDigit (b % 16)]

/-- crypto.randomBytes(n).toString('hex'): the entropy bytes come from the
environment, the handler hex-encodes them. -/
def bytesToHex (bs : List Nat) : String :=
  String.mk (List.flatten (bs.map byteToHex))

/-- One call to sendConfirmationEmails: a pair of templated messages (to
the participant and to the operator) handed to the mail transport. -/
structure Dispatch where
  toEmail : String
  referenceId : String
  transactionId : Option String
deriving DecidableEq, Repr

/-- Revision 1 registration record, the value stored in the in-memory
registrations Map (server.js lines 143-149, later mutated in place). -/
structure UserData1 where
  fullName : String
  email : String
  phone : String
  timestamp : Nat
  paymentConfirmed : Bool
  orderId : Option String := none
  transactionId : Option String := none
deriving DecidableEq, Repr

/-- Revision 1 server state: the registrations Map and the
confirmedPayments Set. -/
structure State1 where
  registrations : List (String × UserData1)
  confirmedPayments : List String
deriving DecidableEq, Repr

/-- The empty revision-1 state at server start. -/
def emptyState1 : State1 := ⟨[], []⟩

/-- Response of POST /api/register. -/
inductive RegisterResp where
  | ok (referenceId : String)
  | missingFields
deriving DecidableEq, Repr

/-- Response of POST /api/create-payment-order (revision 1). -/
inductive OrderResp where
  | ok (orderId razorpayKey : String)
  | missingRef
  | notFound
  | gatewayError (details : String)
deriving DecidableEq, Repr

/-- Response of GET /api/check-payment (revision 1). -/
inductive CheckResp1 where
  | missingRef
  | paid
  | pending
  | unknown
deriving DecidableEq, Repr

/-- Response of POST /api/confirm-payment. -/
inductive ConfirmResp where
  | ok (id : String)
  | incomplete
  | invalidSignature
  | notFound
deriving DecidableEq, Repr

/-- Response of the webhook endpoints. -/
inductive WebhookResp where
  | ack
  | parseRejected
  | invalidSignature
  | serverError
deriving DecidableEq, Repr

/-- Outcome of POST /api/register (revision 1): new state and response;
the handler sends no emails. -/
structure RegOut1 where
  state : State1
  resp : RegisterResp
deriving Repr

/-- POST /api/register (server.js lines 132-159): validate that all three
fields are truthy, generate a 6-byte hex referenceId from
crypto.randomBytes(6), store the record with paymentConfirmed false.
The entropy bytes and the Date.now timestamp are environment inputs. -/
def registerHandler1 (fullName email phone : String) (entropy : List Nat) (now : Nat)
    (st : State1) : RegOut1 :=
  if fullName = "" ∨ email = "" ∨ phone = "" then ⟨st, .missingFields⟩
  else
    let referenceId := bytesToHex (entropy.take 6)
    let u : UserData1 :=
      { fullName := fullName, email := email, phone := phone, timestamp := now,
        paymentConfirmed := false }
    ⟨{ st with registrations := mapSet st.registrations referenceId u }, .ok referenceId⟩

/-- Outcome of POST /api/create-payment-order (revision 1), recording
whether the external gateway was invoked. -/
structure Order1Out where
  state : State1
  resp : OrderResp
  gatewayCalled : Bool
deriving Repr

/-- POST /api/create-payment-order (server.js lines 161-228): 400 on a
falsy referenceId, 404 when the id is not registered — both before the
gateway is contacted — otherwise call the gateway (modelled as a supplied
result), store the returned order id on the record, and answer with the
order id and the public key.  A gateway failure is surfaced as a 500 with
the provider details and writes nothing. -/
def createPaymentOrder1 (referenceId : String) (gw : Except String String)
    (razorpayKey : String) (st : State1) : Order1Out :=
  if referenceId = "" then ⟨st, .missingRef, false⟩
  else
    match mapGet st.registrations referenceId with
    | none => ⟨st, .notFound, false⟩
    | some u =>
      match gw with
      | .error details => ⟨st, .gatewayError details, true⟩
      | .ok orderId =>
        let u' : UserData1 := { u with orderId := some orderId }
        ⟨{ st with registrations := mapSet st.registrations referenceId u' },
         .ok orderId razorpayKey, true⟩

/-- GET /api/check-payment (server.js lines 230-263): 400 on a falsy id;
then the confirmedPayments set decides success, a present registration
answers PENDING, anything else UNKNOWN.  The handler writes nothing. -/
def checkPayment1 (referenceId : String) (st : State1) : State1 × CheckResp1 :=
  if referenceId = "" then (st, .missingRef)
  else if st.confirmedPayments.contains referenceId then (st, .paid)
  else if (mapGet st.registrations referenceId).isSome then (st, .pending)
  else (st, .unknown)

/-- Outcome of POST /api/confirm-payment: new state, response, and the
confirmation-email dispatches performed. -/
structure Confirm1Out where
  state : State1
  resp : ConfirmResp
  emails : List Dispatch
deriving Repr

/-- POST /api/confirm-payment (server.js lines 265-318): require all four
body fields truthy, verify the gateway signature over
orderId|paymentId, then look up the registration by referenceId.  On
success the record is unconditionally marked confirmed — there is no
already-paid test — the payment id is stored as transactionId, the id is
added to confirmedPayments, and the email pair is dispatched. -/
def confirmPayment1 (hmac : Hmac) (secret : String)
    (paymentId orderId signature referenceId : String) (st : State1) : Confirm1Out :=
  if paymentId = "" ∨ orderId = "" ∨ signature = "" ∨ referenceId = "" then
    ⟨st, .incomplete, []⟩
  else if !(verifyRazorpaySignature hmac secret orderId paymentId signature) then
    ⟨st, .invalidSignature, []⟩
  else
    match mapGet st.registrations referenceId with
    | none => ⟨st, .notFound, []⟩
    | some u =>
      let u' := { u with paymentConfirmed := true, transactionId := some paymentId }
      ⟨{ registrations := mapSet st.registrations referenceId u',
         confirmedPayments := setAdd st.confirmedPayments referenceId },
       .ok referenceId, [⟨u'.email, referenceId, some paymentId⟩]⟩

/-- Follow webhookData.payload.payment.entity and read order_id and id,
with JS member-access exceptions propagated. -/
def entityIds (body : Json) : Except Unit (Option Json × Option Json) :=
  let en := jStep (jStep (jStep (.ok (some body)) "payload") "payment") "entity"
  match jStep en "order_id", jStep en "id" with
  | .ok o, .ok p => .ok (o, p)
  | _, _ => .error ()

/-- The body of the revision-1 webhook after the signature gate
(server.js lines 344-379).  Captured/authorized events resolve a
registration by scanning the Map in insertion order for a matching
orderId, then unconditionally mark it confirmed — again no already-paid
test — and dispatch the email pair; payment.failed only logs; a thrown
member access is caught by the outer handler, which still acknowledges. -/
def processEvent1 (body : Json) (st : State1) : State1 × List Dispatch :=
  match jStep (.ok (some body)) "event" with
  | .error _ => (st, [])
  | .ok ev =>
    if isStrVal ev "payment.captured" || isStrVal ev "payment.authorized" then
      match entityIds body with
      | .error _ => (st, [])
      | .ok (oidJ, pidJ) =>
        match st.registrations.find? (fun kv => jsEqStrJ kv.2.orderId oidJ) with
        | none => (st, [])
        | some (k, u) =>
          let u' := { u with paymentConfirmed := true, transactionId := asStr pidJ }
          ({ registrations := mapSet st.registrations k u',
             confirmedPayments := setAdd st.confirmedPayments k },
           [⟨u'.email, k, asStr pidJ⟩])
    else (st, [])

/-- Outcome of a webhook request. -/
structure WebhookOut1 where
  state : State1
  resp : WebhookResp
  emails : List Dispatch
deriving Repr

/-- The strict bodyParser.json middleware in front of the revision-1
webhook: invalid JSON, or a valid document that is not an object or
array, is rejected with a 400 before the handler runs. -/
def parseBody1 (raw : String) : Option Json :=
  match parseJson raw with
  | some (.obj fs) => some (.obj fs)
  | some (.arr xs) => some (.arr xs)
  | _ => none

/-- POST /api/razorpay-webhook (server.js lines 320-388).  The body has
already been parsed by the json middleware, so the signature gate runs
over JSON.stringify(req.body) — a re-serialization of the parsed object,
not the raw bytes received.  After the gate every path, including an
internal exception, acknowledges with 200. -/
def razorpayWebhook1 (hmac : Hmac) (header webhookSecret : Option String)
    (raw : String) (st : State1) : WebhookOut1 :=
  match parseBody1 raw with
  | none => ⟨st, .parseRejected, []⟩
  | some body =>
    if sigGateRejects hmac header webhookSecret (stringifyJson body) then
      ⟨st, .invalidSignature, []⟩
    else
      ⟨(processEvent1 body st).1, .ack, (processEvent1 body st).2⟩

/-- JS x-or-else-d on an optional string: absent and empty strings fall back
to the default. -/
def jsOr (o : Option String) (d : String) : String :=
  match o with
  | some s => if s = "" then d else s
  | none => d

/-- Revision 2 registration record stored under registrations/uid in the
Realtime Database.  The orderAmount / orderCurrency / orderTimestamp
bookkeeping written at order creation is never read by any embedded
endpoint and is omitted; the parallel users/uid/registration mirror
receives byte-identical updates and is likewise not modelled because no
embedded endpoint reads it. -/
structure UserData2 where
  fullName : String
  email : String
  phone : String
  timestamp : Option String := none
  orderId : Option String := none
  orderStatus : Option String := none
  paymentConfirmed : Bool := false
  transactionId : Option String := none
  paymentStatus : Option String := none
  paymentTimestamp : Option String := none
  paymentFailureReason : Option String := none
  paymentFailureTimestamp : Option String := none
deriving DecidableEq, Repr

/-- Record written under confirmedPayments/uid. -/
structure ConfirmedPayment2 where
  paymentId : String
  orderId : String
  timestamp : String
deriving DecidableEq, Repr

/-- Revision 2 persistent state. -/
structure State2 where
  registrations : List (String × UserData2)
  confirmedPayments : List (String × ConfirmedPayment2)
deriving DecidableEq, Repr

/-- The empty revision-2 state. -/
def emptyState2 : State2 := ⟨[], []⟩

/-- The Firebase Auth profile fields read when auto-creating a missing
registration. -/
structure AuthProfile where
  displayName : Option String
  email : Option String
deriving Repr

/-- The basic registration created by the revision-2 order-creation
handler when the authenticated user has no registration record yet
(server.js lines 667-686). -/
def basicRegistration (auth : AuthProfile) (nowIso : String) : UserData2 :=
  { fullName := jsOr auth.displayName "Unknown",
    email := auth.email.getD "",
    phone := "",
    timestamp := some nowIso }

/-- Outcome of POST /api/create-payment-order (revision 2). -/
structure Order2Out where
  state : State2
  resp : OrderResp
  gatewayCalled : Bool
deriving Repr

/-- POST /api/create-payment-order, authenticated revision (server.js
lines 659-760): the caller is identified by the Firebase uid.  A missing
registration is NOT an error — the handler creates a basic record from
the auth profile and proceeds.  The gateway is then always invoked; on
success the order id and status are stored on the record, on failure the
provider error is surfaced as a 500. -/
def createPaymentOrder2 (uid : String) (auth : AuthProfile) (gw : Except String String)
    (razorpayKey nowIso : String) (st : State2) : Order2Out :=
  let st1 :=
    match mapGet st.registrations uid with
    | some _ => st
    | none => { st with registrations := mapSet st.registrations uid (basicRegistration auth nowIso) }
  match gw with
  | .error details => ⟨st1, .gatewayError details, true⟩
  | .ok orderId =>
    match mapGet st1.registrations uid with
    | some u =>
      let u' : UserData2 := { u with orderId := some orderId, orderStatus := some "created" }
      ⟨{ st1 with registrations := mapSet st1.registrations uid u' }, .ok orderId razorpayKey, true⟩
    | none => ⟨st1, .ok orderId razorpayKey, true⟩

/-- Outcome of POST /api/confirm-payment (revision 2). -/
structure Confirm2Out where
  state : State2
  resp : ConfirmResp
  emails : List Dispatch
deriving Repr

/-- POST /api/confirm-payment, authenticated revision (server.js lines
763-842): require the three Razorpay fields truthy, verify the signature,
look the registration up by uid (404 when absent), then unconditionally
mark it confirmed — no already-paid test — record the confirmed payment
and dispatch the email pair. -/
def confirmPayment2 (hmac : Hmac) (secret : String)
    (paymentId orderId signature uid nowIso : String) (st : State2) : Confirm2Out :=
  if paymentId = "" ∨ orderId = "" ∨ signature = "" then ⟨st, .incomplete, []⟩
  else if !(verifyRazorpaySignature hmac secret orderId paymentId signature) then
    ⟨st, .invalidSignature, []⟩
  else
    match mapGet st.registrations uid with
    | none => ⟨st, .notFound, []⟩
    | some u =>
      let u' : UserData2 := { u with
        paymentConfirmed := true
        transactionId := some paymentId
        paymentStatus := some "Confirmed"
        paymentTimestamp := some nowIso }
      ⟨{ registrations := mapSet st.registrations uid u',
         confirmedPayments := mapSet st.confirmedPayments uid ⟨paymentId, orderId, nowIso⟩ },
       .ok uid, [⟨u.email, uid, some paymentId⟩]⟩

/-- Response of GET /api/check-payment (revision 2). -/
inductive CheckResp2 where
  | paid
  | statusIs (status : String)
  | unknown
deriving DecidableEq, Repr

/-- GET /api/check-payment, authenticated revision (server.js lines
962-1003): a confirmedPayments record answers success; otherwise a present
registration answers its stored paymentStatus, defaulting to PENDING;
otherwise UNKNOWN.  The handler writes nothing. -/
def checkPayment2 (uid : String) (st : State2) : State2 × CheckResp2 :=
  if (mapGet st.confirmedPayments uid).isSome then (st, .paid)
  else
    match mapGet st.registrations uid with
    | some u => (st, .statusIs (jsOr u.paymentStatus "PENDING"))
    | none => (st, .unknown)

/-- Follow the entity of a payment.failed payload and read order_id and
error_description, with member-access exceptions propagated. -/
def entityFailInfo (body : Json) : Except Unit (Option Json × Option Json) :=
  let en := jStep (jStep (jStep (.ok (some body)) "payload") "payment") "entity"
  match jStep en "order_id", jStep en "error_description" with
  | .ok o, .ok e => .ok (o, e)
  | _, _ => .error ()

/-- The body of the revision-2 webhook after the signature gate (server.js
lines 871-951), in an exception monad: a thrown member access, a Firebase
equalTo(undefined) query, or an update carrying an undefined value is an
error the outer catch turns into a 500.  Captured/authorized events
resolve the registration by orderId and unconditionally mark it confirmed
(no already-paid test) with the email pair dispatched; payment.failed
events unconditionally overwrite paymentStatus and the failure fields,
with no test that the registration is already confirmed. -/
def processEvent2 (body : Json) (nowIso : String) (st : State2) :
    Except Unit (State2 × List Dispatch) :=
  match jStep (.ok (some body)) "event" with
  | .error _ => .error ()
  | .ok ev =>
    if isStrVal ev "payment.captured" || isStrVal ev "payment.authorized" then
      match entityIds body with
      | .error _ => .error ()
      | .ok (oidJ, pidJ) =>
        match asStr oidJ with
        | none => .error ()
        | some oid =>
          match (st.registrations.filter (fun kv => kv.2.orderId == some oid)).head? with
          | none => .ok (st, [])
          | some (uid, u) =>
            match asStr pidJ with
            | none => .error ()
            | some pid =>
              let u' : UserData2 := { u with
                paymentConfirmed := true
                transactionId := some pid
                paymentStatus := some "Confirmed"
                paymentTimestamp := some nowIso }
              .ok ({ registrations := mapSet st.registrations uid u',
                     confirmedPayments := mapSet st.confirmedPayments uid ⟨pid, oid, nowIso⟩ },
                   [⟨u.email, uid, some pid⟩])
    else if isStrVal ev "payment.failed" then
      match entityFailInfo body with
      | .error _ => .error ()
      | .ok (oidJ, edJ) =>
        match asStr oidJ with
        | none => .error ()
        | some oid =>
          match (st.registrations.filter (fun kv => kv.2.orderId == some oid)).head? with
          | none => .ok (st, [])
          | some (uid, u) =>
            let u' : UserData2 := { u with
              paymentStatus := some "Failed"
              paymentFailureReason := some (jsOr (asStr edJ) "Unknown error")
              paymentFailureTimestamp := some nowIso }
            .ok ({ st with registrations := mapSet st.registrations uid u' }, [])
    else .ok (st, [])

/-- Outcome of the revision-2 webhook. -/
structure WebhookOut2 where
  state : State2
  resp : WebhookResp
  emails : List Dispatch
deriving Repr

/-- POST /api/inspiringshereen-webhook (server.js lines 845-959).  The
route receives the raw body; the handler first runs JSON.parse on it —
before any signature verification — then the signature gate over the raw
string, then event processing.  JSON.parse failures and processing
exceptions reach the catch, which responds 500. -/
def inspiringshereenWebhook2 (hmac : Hmac) (header webhookSecret : Option String)
    (raw nowIso : String) (st : State2) : WebhookOut2 :=
  match parseJson raw with
  | none => ⟨st, .serverError, []⟩
  | some body =>
    if sigGateRejects hmac header webhookSecret raw then ⟨st, .invalidSignature, []⟩
    else
      match processEvent2 body nowIso st with
      | .error _ => ⟨st, .serverError, []⟩
      | .ok (st', ds) => ⟨st', .ack, ds⟩

/-- A concrete, injective stand-in for the external HMAC-SHA256 primitive,
used to evaluate the handlers at closed inputs; the handler theorems
quantify over the primitive, so any function may instantiate them. -/
def hmacModel (secret msg : String) : String := secret ++ ":" ++ msg

/-- A canonical (whitespace-free) payment.captured webhook body for order
o1 and payment p1. -/
def rawCaptured : String :=
  "\x7b\"event\":\"payment.captured\",\"payload\":\x7b\"payment\":\x7b\"entity\":\x7b\"order_id\":\"o1\",\"id\":\"p1\"\x7d\x7d\x7d\x7d"

/-- A payment.captured body carrying insignificant whitespace: byte-wise
different from its parse-then-stringify round trip. -/
def rawCapturedWs : String := "\x7b \"event\": \"payment.captured\" \x7d"

/-- A payment.failed webhook body for order o1. -/
def rawFailed : String :=
  "\x7b\"event\":\"payment.failed\",\"payload\":\x7b\"payment\":\x7b\"entity\":\x7b\"order_id\":\"o1\",\"error_description\":\"declined\"\x7d\x7d\x7d\x7d"

/-- A revision-1 registration that has already been paid. -/
def paidUser1 : UserData1 :=
  { fullName := "A", email := "a@x.com", phone := "+910000000000", timestamp := 0,
    paymentConfirmed := true, orderId := some "o1", transactionId := some "p1" }

/-- A revision-1 state whose only registration r1 is already confirmed and
recorded in confirmedPayments. -/
def paidState1 : State1 := ⟨[("r1", paidUser1)], ["r1"]⟩

/-- A revision-2 registration already confirmed for order o1. -/
def paidUser2 : UserData2 :=
  { fullName := "A", email := "a@x.com", phone := "+910000000000",
    orderId := some "o1", paymentConfirmed := true, transactionId := some "p1",
    paymentStatus := some "Confirmed", paymentTimestamp := some "t0" }

/-- A revision-2 state whose only registration u1 is already confirmed. -/
def paidState2 : State2 := ⟨[("u1", paidUser2)], [("u1", ⟨"p1", "o1", "t0"⟩)]⟩

/-- C1: the claim says a second payment confirmation for an already-PAID
registration returns success without a second notification dispatch.  The
code has no already-paid test: evaluated on a state whose registration r1
is already confirmed, both the client-callback path (with a valid
signature) and the webhook captured path resolving r1 by its orderId
return success AND dispatch the confirmation-email pair again. -/
theorem c1_duplicate_confirmation_dispatches_again :
    paidUser1.paymentConfirmed = true ∧
    paidState1.confirmedPayments.contains "r1" = true ∧
    (confirmPayment1 hmacModel "k" "p1" "o1" (hmacModel "k" "o1|p1") "r1" paidState1).resp =
      .ok "r1" ∧
    (confirmPayment1 hmacModel "k" "p1" "o1" (hmacModel "k" "o1|p1") "r1" paidState1).emails =
      [⟨"a@x.com", "r1", some "p1"⟩] ∧
    (razorpayWebhook1 hmacModel none none rawCaptured paidState1).resp = .ack ∧
    (razorpayWebhook1 hmacModel none none rawCaptured paidState1).emails =
      [⟨"a@x.com", "r1", some "p1"⟩] := by
  refine ⟨rfl, rfl, rfl, rfl, rfl, rfl⟩

/-- C2: the claim says PAID is terminal and a payment.failed webhook for
an already-PAID registration never changes its status or failure fields.
Evaluated on a state whose registration u1 is confirmed (paymentStatus
Confirmed, a confirmedPayments record exists), the revision-2 failed
branch still acknowledges 200 but unconditionally rewrites paymentStatus
to Failed and writes the failure fields. -/
theorem c2_failed_event_overwrites_paid_registration :
    paidUser2.paymentConfirmed = true ∧
    paidUser2.paymentStatus = some "Confirmed" ∧
    (mapGet paidState2.confirmedPayments "u1").isSome = true ∧
    (inspiringshereenWebhook2 hmacModel none none rawFailed "t1" paidState2).resp = .ack ∧
    (mapGet (inspiringshereenWebhook2 hmacModel none none rawFailed "t1" paidState2).state.registrations
        "u1").map (fun u => u.paymentStatus) = some (some "Failed") ∧
    (mapGet (inspiringshereenWebhook2 hmacModel none none rawFailed "t1" paidState2).state.registrations
        "u1").map (fun u => u.paymentFailureReason) = some (some "declined") := by
  refine ⟨rfl, rfl, rfl, rfl, rfl, rfl⟩

/-- C3 counterexample: the claim says every inbound webhook request is
answered 200 with success, even on signature failure or internal error.
A request whose recomputed digest differs from the header is answered 401
by revision 1, and a request whose body is not JSON is answered 500 by
revision 2. -/
theorem c3_counterexample_webhook_not_always_success :
    (razorpayWebhook1 hmacModel (some "bad") (some "w") rawCaptured paidState1).resp =
      .invalidSignature ∧
    (inspiringshereenWebhook2 hmacModel none none "not json" "t1" paidState2).resp =
      .serverError := by
  refine ⟨rfl, rfl⟩

/-- C4: the claim says the webhook signature is verified over the exact
raw body bytes before any JSON parsing, never over a re-serialization.
Revision 1 verifies JSON.stringify(req.body): on a body with insignificant
whitespace the round trip differs from the received bytes, and a signature
computed over the exact received bytes is rejected 401.  Revision 2 runs
JSON.parse before the signature gate: a non-JSON body with a mismatched
signature yields the parse 500, not the 401, so no verification occurred
first. -/
theorem c4_signature_message_reserialized_and_parse_first :
    (parseBody1 rawCapturedWs).map stringifyJson =
      some "\x7b\"event\":\"payment.captured\"\x7d" ∧
    ("\x7b\"event\":\"payment.captured\"\x7d" : String) ≠ rawCapturedWs ∧
    (razorpayWebhook1 hmacModel (some (hmacModel "w" rawCapturedWs)) (some "w")
        rawCapturedWs paidState1).resp = .invalidSignature ∧
    (inspiringshereenWebhook2 hmacModel (some "mismatch") (some "w") "not json" "t1"
        paidState2).resp = .serverError := by
  refine ⟨rfl, by decide, rfl, rfl⟩

/-- C6: the claim says the signature comparison is constant-time.  The
source compares with plain string equality; under the short-circuit cost
model of that comparison, two equal-length rejected signatures that differ
from the expected digest at the first versus the last character cost a
different number of character comparisons, so the running time depends on
the position of the first differing byte. -/
theorem c6_signature_comparison_is_not_constant_time :
    verifyRazorpaySignature hmacModel "k" "o" "p" "x:o|p" = false ∧
    verifyRazorpaySignature hmacModel "k" "o" "p" "k:o|x" = false ∧
    ("x:o|p" : String).length = ("k:o|x" : String).length ∧
    verifySignatureCost hmacModel "k" "o" "p" "x:o|p" = 1 ∧
    verifySignatureCost hmacModel "k" "o" "p" "k:o|x" = 5 ∧
    (1 : Nat) ≠ 5 := by
  refine ⟨rfl, rfl, rfl, rfl, rfl, by decide⟩

/-- C7 counterexample: the claim says the referenceId is the hex encoding
of at least 12 bytes of entropy, i.e. at least 24 hex characters.  The
code draws crypto.randomBytes(6): the generated id is 12 hex characters. -/
theorem c7_counterexample_reference_id_six_bytes :
    (registerHandler1 "A" "a@x.com" "+910000000000" [10, 11, 12, 13, 14, 15] 0
        emptyState1).resp = .ok "0a0b0c0d0e0f" ∧
    ("0a0b0c0d0e0f" : String).length = 12 ∧
    ¬ (24 ≤ ("0a0b0c0d0e0f" : String).length) := by
  refine ⟨rfl, rfl, by decide⟩

/-- C8 counterexample: the claim says order creation for an unknown caller
identity fails with NotFoundError, leaves the store unchanged and creates
no gateway order.  The authenticated revision instead auto-creates a basic
registration from the auth profile, calls the gateway, stores the order id
on the new record and answers success. -/
theorem c8_counterexample_autocreates_registration :
    (createPaymentOrder2 "u1" ⟨some "N", some "n@x.com"⟩ (.ok "order_X") "key" "t0"
        emptyState2).resp = .ok "order_X" "key" ∧
    (createPaymentOrder2 "u1" ⟨some "N", some "n@x.com"⟩ (.ok "order_X") "key" "t0"
        emptyState2).gatewayCalled = true ∧
    (createPaymentOrder2 "u1" ⟨some "N", some "n@x.com"⟩ (.ok "order_X") "key" "t0"
        emptyState2).state ≠ emptyState2 ∧
    mapGet (createPaymentOrder2 "u1" ⟨some "N", some "n@x.com"⟩ (.ok "order_X") "key" "t0"
        emptyState2).state.registrations "u1" =
      some { fullName := "N", email := "n@x.com", phone := "", timestamp := some "t0",
             orderId := some "order_X", orderStatus := some "created" } := by
  refine ⟨rfl, rfl, by decide, rfl⟩

theorem mapGet_mapSet_self {α : Type} (m : List (String × α)) (k : String) (v : α) :
    mapGet (mapSet m k v) k = some v := by
  induction m with
  | nil => simp [mapGet, mapSet]
  | cons kv rest ih =>
    obtain ⟨k', v'⟩ := kv
    by_cases h : k' == k
    · simp [mapSet, mapGet, h]
    · simp only [mapSet, h]
      simp only [Bool.false_eq_true] at h
      simp [mapGet, h, ih]

theorem jsEqChars_eq_decide (l1 l2 : List Char) : jsEqChars l1 l2 = decide (l1 = l2) := by
  induction l1 generalizing l2 with
  | nil => cases l2 <;> simp [jsEqChars]
  | cons a as ih =>
    cases l2 with
    | nil => simp [jsEqChars]
    | cons b bs => by_cases h : a = b <;> simp [jsEqChars, h, ih]

theorem jsEqChars_data_eq (s t : String) : jsEqChars s.data t.data = (s = t : Bool) := by
  rw [jsEqChars_eq_decide]
  rcases s with ⟨l1⟩
  rcases t with ⟨l2⟩
  simp [String.ext_iff]

/-- Decode a lowercase hex digit character back to its value. -/
def hexVal (c : Char) : Nat :=
  if c.toNat ≤ 57 then c.toNat - 48 else c.toNat - 87

theorem hexVal_hexDigit (n : Nat) (h : n < 16) : hexVal (hexDigit n) = n := by
  interval_cases n <;> rfl

theorem byteToHex_injOn (a b : Nat) (ha : a < 256) (hb : b < 256)
    (h : byteToHex a = byteToHex b) : a = b := by
  unfold byteToHex at h
  simp only [List.cons.injEq, and_true] at h
  obtain ⟨h1, h2⟩ := h
  have hda : a / 16 < 16 := by omega
  have hdb : b / 16 < 16 := by omega
  have hma : a % 16 < 16 := Nat.mod_lt _ (by norm_num)
  have hmb : b % 16 < 16 := Nat.mod_lt _ (by norm_num)
  have d1 : a / 16 = b / 16 := by
    have := congrArg hexVal h1
    rwa [hexVal_hexDigit _ hda, hexVal_hexDigit _ hdb] at this
  have d2 : a % 16 = b % 16 := by
    have := congrArg hexVal h2
    rwa [hexVal_hexDigit _ hma, hexVal_hexDigit _ hmb] at this
  omega

theorem flatten_byteToHex_length (bs : List Nat) :
    (List.flatten (bs.map byteToHex)).length = 2 * bs.length := by
  induction bs with
  | nil => simp
  | cons b rest ih => simp [byteToHex, ih]; omega

theorem hexChunks_injOn : ∀ (e1 e2 : List Nat), e1.length = e2.length →
    (∀ b ∈ e1, b < 256) → (∀ b ∈ e2, b < 256) →
    List.flatten (e1.map byteToHex) = List.flatten (e2.map byteToHex) → e1 = e2 := by
  intro e1
  induction e1 with
  | nil =>
    intro e2 hlen _ _ _
    cases e2 with
    | nil => rfl
    | cons b bs => simp at hlen
  | cons a as ih =>
    intro e2 hlen hb1 hb2 hflat
    cases e2 with
    | nil => simp at hlen
    | cons b bs =>
      simp only [List.map_cons, List.flatten_cons] at hflat
      have hlen2 : (byteToHex a).length = (byteToHex b).length := by simp [byteToHex]
      obtain ⟨hhead, htail⟩ := List.append_inj hflat hlen2
      have hab : a = b := byteToHex_injOn a b (hb1 a (by simp)) (hb2 b (by simp)) hhead
      have hrest : as = bs :=
        ih bs (by simpa using hlen) (fun x hx => hb1 x (by simp [hx]))
          (fun x hx => hb2 x (by simp [hx])) htail
      rw [hab, hrest]

theorem bytesToHex_injOn (e1 e2 : List Nat) (hlen : e1.length = e2.length)
    (h1 : ∀ b ∈ e1, b < 256) (h2 : ∀ b ∈ e2, b < 256)
    (h : bytesToHex e1 = bytesToHex e2) : e1 = e2 := by
  unfold bytesToHex at h
  have hd := congrArg String.data h
  exact hexChunks_injOn e1 e2 hlen h1 h2 hd

theorem bytesToHex_length (bs : List Nat) : (bytesToHex bs).length = 2 * bs.length := by
  unfold bytesToHex
  show (List.flatten (bs.map byteToHex)).length = 2 * bs.length
  exact flatten_byteToHex_length bs

/-- C7 (amended): the referenceId returned for a valid registration is the
hex encoding of the 6 bytes drawn from crypto.randomBytes(6) — 12 hex
characters, not 24 — and hex encoding is injective on 6-byte draws, so
distinct entropy yields distinct ids. -/
theorem c7_amended_reference_id_six_byte_hex
    (fullName email phone : String) (entropy : List Nat) (now : Nat) (st : State1)
    (hf : fullName ≠ "") (he : email ≠ "") (hp : phone ≠ "")
    (hlen : entropy.length = 6) (hbytes : ∀ b ∈ entropy, b < 256) :
    (registerHandler1 fullName email phone entropy now st).resp = .ok (bytesToHex entropy) ∧
    (bytesToHex entropy).length = 12 ∧
    (∀ e2 : List Nat, e2.length = 6 → (∀ b ∈ e2, b < 256) →
      bytesToHex e2 = bytesToHex entropy → e2 = entropy) := by
  have htake : entropy.take 6 = entropy := by
    rw [← hlen]
    exact List.take_length entropy
  refine ⟨?_, ?_, ?_⟩
  · simp [registerHandler1, hf, he, hp, htake]
  · rw [bytesToHex_length, hlen]
  · intro e2 hl2 hb2 heq
    exact bytesToHex_injOn e2 entropy (by rw [hl2, hlen]) hb2 hbytes heq

theorem c7_amended_reference_id_six_byte_hex_witness :
    (registerHandler1 "A" "a@x.com" "+910000000000" [0, 1, 2, 3, 4, 5] 0 emptyState1).resp =
      .ok (bytesToHex [0, 1, 2, 3, 4, 5]) ∧
    (bytesToHex [0, 1, 2, 3, 4, 5]).length = 12 ∧
    (∀ e2 : List Nat, e2.length = 6 → (∀ b ∈ e2, b < 256) →
      bytesToHex e2 = bytesToHex [0, 1, 2, 3, 4, 5] → e2 = [0, 1, 2, 3, 4, 5]) :=
  c7_amended_reference_id_six_byte_hex "A" "a@x.com" "+910000000000" [0, 1, 2, 3, 4, 5] 0
    emptyState1 (by decide) (by decide) (by decide) (by decide) (by decide)

/-- C8 (amended): in the unauthenticated revision, order creation on an
unknown referenceId answers 404 NotFound with the store unchanged and the
gateway never invoked; in the authenticated revision, a missing
registration is auto-created from the auth profile and order creation
proceeds — the gateway is invoked, the response is never NotFound, and
the store gains a record for the caller. -/
theorem c8_amended_order_creation_unknown_id :
    (∀ (referenceId : String) (gw : Except String String) (key : String) (st : State1),
      referenceId ≠ "" → mapGet st.registrations referenceId = none →
      createPaymentOrder1 referenceId gw key st = ⟨st, .notFound, false⟩) ∧
    (∀ (uid : String) (auth : AuthProfile) (gw : Except String String)
        (key nowIso : String) (st : State2),
      mapGet st.registrations uid = none →
      (createPaymentOrder2 uid auth gw key nowIso st).gatewayCalled = true ∧
      (createPaymentOrder2 uid auth gw key nowIso st).resp ≠ .notFound ∧
      mapGet (createPaymentOrder2 uid auth gw key nowIso st).state.registrations uid ≠ none) := by
  constructor
  · intro referenceId gw key st href hnone
    simp [createPaymentOrder1, href, hnone]
  · intro uid auth gw key nowIso st hnone
    cases gw with
    | error details =>
      refine ⟨rfl, by simp [createPaymentOrder2, hnone], ?_⟩
      simp [createPaymentOrder2, hnone, mapGet_mapSet_self]
    | ok orderId =>
      refine ⟨?_, ?_, ?_⟩ <;> simp [createPaymentOrder2, hnone, mapGet_mapSet_self]

theorem c8_amended_order_creation_unknown_id_witness :
    createPaymentOrder1 "rX" (.ok "oY") "key" emptyState1 = ⟨emptyState1, .notFound, false⟩ ∧
    (createPaymentOrder2 "uX" ⟨none, none⟩ (.ok "oY") "key" "t0" emptyState2).gatewayCalled =
      true ∧
    (createPaymentOrder2 "uX" ⟨none, none⟩ (.ok "oY") "key" "t0" emptyState2).resp ≠
      .notFound ∧
    mapGet (createPaymentOrder2 "uX" ⟨none, none⟩ (.ok "oY") "key" "t0"
        emptyState2).state.registrations "uX" ≠ none :=
  ⟨c8_amended_order_creation_unknown_id.1 "rX" (.ok "oY") "key" emptyState1 (by decide) rfl,
   c8_amended_order_creation_unknown_id.2 "uX" ⟨none, none⟩ (.ok "oY") "key" "t0" emptyState2 rfl⟩

/-- C10: the client-callback confirmation never consults the stored
orderId and does not require that an order was created: in both revisions,
for every stored registration — whatever its orderId field, including none
— and every triple whose signature verifies against the gateway secret,
the handler marks the registration confirmed with transactionId equal to
the submitted payment id, records the confirmed payment, answers success,
and dispatches the confirmation-email pair. -/
theorem c10_confirmation_ignores_stored_order :
    (∀ (hmac : Hmac) (secret pid oid sig refId : String) (st : State1) (u : UserData1),
      pid ≠ "" → oid ≠ "" → sig ≠ "" → refId ≠ "" →
      verifyRazorpaySignature hmac secret oid pid sig = true →
      mapGet st.registrations refId = some u →
      confirmPayment1 hmac secret pid oid sig refId st =
        ⟨⟨mapSet st.registrations refId
            { u with paymentConfirmed := true, transactionId := some pid },
          setAdd st.confirmedPayments refId⟩,
         .ok refId, [⟨u.email, refId, some pid⟩]⟩) ∧
    (∀ (hmac : Hmac) (secret pid oid sig uid nowIso : String) (st : State2) (u : UserData2),
      pid ≠ "" → oid ≠ "" → sig ≠ "" →
      verifyRazorpaySignature hmac secret oid pid sig = true →
      mapGet st.registrations uid = some u →
      confirmPayment2 hmac secret pid oid sig uid nowIso st =
        ⟨⟨mapSet st.registrations uid { u with
            paymentConfirmed := true
            transactionId := some pid
            paymentStatus := some "Confirmed"
            paymentTimestamp := some nowIso },
          mapSet st.confirmedPayments uid ⟨pid, oid, nowIso⟩⟩,
         .ok uid, [⟨u.email, uid, some pid⟩]⟩) := by
  constructor
  · intro hmac secret pid oid sig refId st u hpid hoid hsig href hver hreg
    simp [confirmPayment1, hpid, hoid, hsig, href, hver, hreg]
  · intro hmac secret pid oid sig uid nowIso st u hpid hoid hsig hver hreg
    simp [confirmPayment2, hpid, hoid, hsig, hver, hreg]

/-- An unpaid revision-1 registration (order created, not yet paid). -/
def unpaidUser1 : UserData1 :=
  { fullName := "B", email := "b@x.com", phone := "+911111111111", timestamp := 0,
    paymentConfirmed := false, orderId := some "o1" }

/-- A revision-1 state with one unpaid registration r1. -/
def unpaidState1 : State1 := ⟨[("r1", unpaidUser1)], []⟩

/-- A registration with no order ever created (orderId still absent). -/
def noOrderUser1 : UserData1 :=
  { fullName := "C", email := "c@x.com", phone := "+912222222222", timestamp := 0,
    paymentConfirmed := false }

/-- A revision-1 state with one registration that has no orderId. -/
def noOrderState1 : State1 := ⟨[("r2", noOrderUser1)], []⟩

theorem c10_confirmation_ignores_stored_order_witness :
    confirmPayment1 hmacModel "k" "p9" "oZ" (hmacModel "k" "oZ|p9") "r2" noOrderState1 =
      ⟨⟨mapSet noOrderState1.registrations "r2"
          { noOrderUser1 with paymentConfirmed := true, transactionId := some "p9" },
        setAdd noOrderState1.confirmedPayments "r2"⟩,
       .ok "r2", [⟨noOrderUser1.email, "r2", some "p9"⟩]⟩ :=
  c10_confirmation_ignores_stored_order.1 hmacModel "k" "p9" "oZ" (hmacModel "k" "oZ|p9")
    "r2" noOrderState1 noOrderUser1 (by decide) (by decide) (by decide) (by decide)
    (by rw [verifyRazorpaySignature, jsEqChars_data_eq]; simp) rfl

theorem sigGateRejects_false_of_not_truthy (hmac : Hmac) (header secret : Option String)
    (msg : String) (h : truthyS header = false ∨ truthyS secret = false) :
    sigGateRejects hmac header secret msg = false := by
  cases header with
  | none => rfl
  | some hd =>
    cases secret with
    | none => rfl
    | some w =>
      simp only [truthyS] at h
      rcases h with h | h
      · simp only [Bool.not_eq_false', beq_iff_eq] at h
        simp [sigGateRejects, h]
      · simp only [Bool.not_eq_false', beq_iff_eq] at h
        by_cases hh : hd = ""
        · simp [sigGateRejects, hh]
        · simp [sigGateRejects, hh, h]

/-- C3 (amended): both webhook handlers acknowledge 200 with success for
every processed or unrecognised event, but not unconditionally: signature
verification failure is answered 401 with success false — exactly when
the body was parseable and the gate condition fires — the revision-1
json middleware answers 400 on an unparseable body, and revision 2
answers 500 with success false on a JSON.parse failure or processing
exception (revision 1 still acknowledges 200 on an internal exception). -/
theorem c3_amended_webhook_responses :
    (∀ (hmac : Hmac) (header secret : Option String) (raw : String) (st : State1),
      ((razorpayWebhook1 hmac header secret raw st).resp = .ack ∨
       (razorpayWebhook1 hmac header secret raw st).resp = .parseRejected ∨
       (razorpayWebhook1 hmac header secret raw st).resp = .invalidSignature) ∧
      ((razorpayWebhook1 hmac header secret raw st).resp = .invalidSignature ↔
        ∃ body, parseBody1 raw = some body ∧
          sigGateRejects hmac header secret (stringifyJson body) = true)) ∧
    (∀ (hmac : Hmac) (header secret : Option String) (raw nowIso : String) (st : State2),
      ((inspiringshereenWebhook2 hmac header secret raw nowIso st).resp = .ack ∨
       (inspiringshereenWebhook2 hmac header secret raw nowIso st).resp = .serverError ∨
       (inspiringshereenWebhook2 hmac header secret raw nowIso st).resp = .invalidSignature) ∧
      ((inspiringshereenWebhook2 hmac header secret raw nowIso st).resp = .invalidSignature ↔
        (parseJson raw).isSome = true ∧ sigGateRejects hmac header secret raw = true)) := by
  constructor
  · intro hmac header secret raw st
    cases hp : parseBody1 raw with
    | none => simp [razorpayWebhook1, hp]
    | some body =>
      cases hg : sigGateRejects hmac header secret (stringifyJson body) with
      | false => simp [razorpayWebhook1, hp, hg]
      | true => simp [razorpayWebhook1, hp, hg]
  · intro hmac header secret raw nowIso st
    cases hp : parseJson raw with
    | none => simp [inspiringshereenWebhook2, hp]
    | some body =>
      cases hg : sigGateRejects hmac header secret raw with
      | false =>
        cases hev : processEvent2 body nowIso st with
        | error e => simp [inspiringshereenWebhook2, hp, hg, hev]
        | ok out =>
          obtain ⟨st', ds⟩ := out
          simp [inspiringshereenWebhook2, hp, hg, hev]
      | true => simp [inspiringshereenWebhook2, hp, hg]

/-- C5: the webhook gate rejects exactly when the x-razorpay-signature
header is truthy, the webhook secret is truthy, and the recomputed digest
differs from the header; consequently, with no header (or no configured
secret) verification is skipped entirely — the event is processed as
authentic, including, for a captured event resolving a registration by
orderId, the transition to the confirmed state and the dispatch of the
confirmation-email pair. -/
theorem c5_signature_gate_condition :
    (∀ (hmac : Hmac) (header secret : Option String) (msg : String),
      sigGateRejects hmac header secret msg = true ↔
        truthyS header = true ∧ truthyS secret = true ∧
        hmac (secret.getD "") msg ≠ header.getD "") ∧
    (∀ (hmac : Hmac) (header secret : Option String) (raw : String) (body : Json) (st : State1),
      parseBody1 raw = some body →
      (truthyS header = false ∨ truthyS secret = false) →
      razorpayWebhook1 hmac header secret raw st =
        ⟨(processEvent1 body st).1, .ack, (processEvent1 body st).2⟩) ∧
    (∀ (hmac : Hmac) (header secret : Option String) (raw nowIso : String) (st : State2),
      (truthyS header = false ∨ truthyS secret = false) →
      (inspiringshereenWebhook2 hmac header secret raw nowIso st).resp ≠ .invalidSignature) ∧
    (∀ (hmac : Hmac) (secret : Option String) (raw : String) (body : Json) (st : State1)
        (k oid pid : String) (u : UserData1),
      parseBody1 raw = some body →
      jStep (.ok (some body)) "event" = .ok (some (.str "payment.captured")) →
      entityIds body = .ok (some (.str oid), some (.str pid)) →
      st.registrations.find? (fun kv => jsEqStrJ kv.2.orderId (some (.str oid))) =
        some (k, u) →
      razorpayWebhook1 hmac none secret raw st =
        ⟨⟨mapSet st.registrations k
            { u with paymentConfirmed := true, transactionId := some pid },
          setAdd st.confirmedPayments k⟩, .ack, [⟨u.email, k, some pid⟩]⟩) := by
  refine ⟨?_, ?_, ?_, ?_⟩
  · intro hmac header secret msg
    cases header with
    | none => simp [sigGateRejects, truthyS]
    | some hd =>
      cases secret with
      | none => simp [sigGateRejects, truthyS]
      | some w =>
        by_cases hh : hd = ""
        · simp [sigGateRejects, truthyS, hh]
        · by_cases hw : w = ""
          · simp [sigGateRejects, truthyS, hh, hw]
          · simp only [sigGateRejects, truthyS, if_neg hh, if_neg hw, Option.getD_some]
            rw [jsEqChars_data_eq]
            simp [hh, hw]
  · intro hmac header secret raw body st hp h
    simp [razorpayWebhook1, hp, sigGateRejects_false_of_not_truthy hmac header secret _ h]
  · intro hmac header secret raw nowIso st h
    cases hp : parseJson raw with
    | none => simp [inspiringshereenWebhook2, hp]
    | some body =>
      have hg := sigGateRejects_false_of_not_truthy hmac header secret raw h
      cases hev : processEvent2 body nowIso st with
      | error e => simp [inspiringshereenWebhook2, hp, hg, hev]
      | ok out =>
        obtain ⟨st', ds⟩ := out
        simp [inspiringshereenWebhook2, hp, hg, hev]
  · intro hmac secret raw body st k oid pid u hp hev hent hfind
    have hg : sigGateRejects hmac none secret (stringifyJson body) = false := rfl
    simp only [razorpayWebhook1, hp, hg, Bool.false_eq_true, if_false]
    simp only [processEvent1, hev, hent, hfind, isStrVal, asStr, beq_self_eq_true,
      Bool.true_or, if_true]

theorem c5_signature_gate_condition_witness :
    razorpayWebhook1 hmacModel none (some "w") rawCaptured unpaidState1 =
      ⟨⟨mapSet unpaidState1.registrations "r1"
          { unpaidUser1 with paymentConfirmed := true, transactionId := some "p1" },
        setAdd unpaidState1.confirmedPayments "r1"⟩, .ack,
       [⟨unpaidUser1.email, "r1", some "p1"⟩]⟩ :=
  c5_signature_gate_condition.2.2.2 hmacModel (some "w") rawCaptured
    (Json.obj [("event", .str "payment.captured"),
      ("payload", .obj [("payment", .obj [("entity",
        .obj [("order_id", .str "o1"), ("id", .str "p1")])])])])
    unpaidState1 "r1" "o1" "p1" unpaidUser1 rfl rfl rfl rfl

/-- The abstract Registration status of the design's data model. -/
inductive RegStatus where
  | CREATED
  | ORDER_CREATED
  | PAID
  | FAILED
deriving DecidableEq, Repr

/-- The four answers of the status query. -/
inductive PollStatus where
  | PAID
  | PENDING
  | FAILED
  | UNKNOWN
deriving DecidableEq, Repr

/-- Modelled from the spec: the status-query contract maps the stored
status to the poll answer — PAID when the status is PAID, PENDING when it
is CREATED or ORDER_CREATED, FAILED when it is FAILED, UNKNOWN when no
Registration exists. -/
def specPollAnswer : Option RegStatus → PollStatus
  | some .PAID => .PAID
  | some .CREATED => .PENDING
  | some .ORDER_CREATED => .PENDING
  | some .FAILED => .FAILED
  | none => .UNKNOWN

/-- The abstract status of a revision-1 registration read off the stored
representation: PAID when recorded in confirmedPayments, ORDER_CREATED
once an orderId is stored, CREATED before that; revision 1 stores no
failed state. -/
def regStatus1 (st : State1) (r : String) : Option RegStatus :=
  match mapGet st.registrations r with
  | none => none
  | some u =>
    if st.confirmedPayments.contains r then some .PAID
    else if u.orderId.isSome then some .ORDER_CREATED
    else some .CREATED

/-- The abstract status of a revision-2 registration: PAID when a
confirmedPayments record exists, FAILED when paymentStatus is Failed,
otherwise ORDER_CREATED / CREATED by the presence of an orderId. -/
def regStatus2 (st : State2) (uid : String) : Option RegStatus :=
  match mapGet st.registrations uid with
  | none => none
  | some u =>
    if (mapGet st.confirmedPayments uid).isSome then some .PAID
    else if u.paymentStatus = some "Failed" then some .FAILED
    else if u.orderId.isSome then some .ORDER_CREATED
    else some .CREATED

/-- The poll answer conveyed by a revision-1 status response. -/
def pollAnswer1 : CheckResp1 → Option PollStatus
  | .missingRef => none
  | .paid => some .PAID
  | .pending => some .PENDING
  | .unknown => some .UNKNOWN

/-- The poll answer conveyed by a revision-2 status response. -/
def pollAnswer2 : CheckResp2 → Option PollStatus
  | .paid => some .PAID
  | .statusIs s =>
    if s = "Failed" then some .FAILED
    else if s = "PENDING" then some .PENDING
    else none
  | .unknown => some .UNKNOWN

theorem checkPayment1_fst (r : String) (st : State1) : (checkPayment1 r st).1 = st := by
  unfold checkPayment1
  split
  · rfl
  · split
    · rfl
    · split
      · rfl
      · rfl

theorem checkPayment2_fst (uid : String) (st : State2) : (checkPayment2 uid st).1 = st := by
  unfold checkPayment2
  split
  · rfl
  · split
    · rfl
    · rfl

/-- C9: the status query is read-only and, on every state satisfying the
store's reachability invariants (a confirmed payment implies a present
registration; without a confirmed payment the stored paymentStatus is
absent or Failed), answers exactly the spec's mapping of the stored
status: PAID for a paid registration, PENDING for CREATED or
ORDER_CREATED, FAILED for a failed one, UNKNOWN when no registration
exists. -/
theorem c9_check_payment_read_only_mapping :
    (∀ (st : State1) (r : String),
      r ≠ "" →
      (st.confirmedPayments.contains r = true → (mapGet st.registrations r).isSome = true) →
      (checkPayment1 r st).1 = st ∧
      pollAnswer1 (checkPayment1 r st).2 = some (specPollAnswer (regStatus1 st r))) ∧
    (∀ (st : State2) (uid : String),
      ((mapGet st.confirmedPayments uid).isSome = true →
        (mapGet st.registrations uid).isSome = true) →
      (∀ u, mapGet st.registrations uid = some u →
        (mapGet st.confirmedPayments uid).isSome = false →
        u.paymentStatus = none ∨ u.paymentStatus = some "Failed") →
      (checkPayment2 uid st).1 = st ∧
      pollAnswer2 (checkPayment2 uid st).2 = some (specPollAnswer (regStatus2 st uid))) := by
  constructor
  · intro st r hr hinv
    refine ⟨checkPayment1_fst r st, ?_⟩
    by_cases hc : st.confirmedPayments.contains r = true
    · have hm : r ∈ st.confirmedPayments := by simpa using hc
      obtain ⟨u, hu⟩ := Option.isSome_iff_exists.mp (hinv hc)
      simp [checkPayment1, regStatus1, hr, hc, hm, hu, pollAnswer1, specPollAnswer]
    · have hc' : st.confirmedPayments.contains r = false := by simpa using hc
      have hm : r ∉ st.confirmedPayments := by simpa using hc
      cases hu : mapGet st.registrations r with
      | none =>
        simp [checkPayment1, regStatus1, hr, hc', hm, hu, pollAnswer1, specPollAnswer]
      | some u =>
        cases ho : u.orderId <;>
          simp [checkPayment1, regStatus1, hr, hc', hm, hu, ho, pollAnswer1, specPollAnswer]
  · intro st uid hcr hps
    refine ⟨checkPayment2_fst uid st, ?_⟩
    by_cases hc : (mapGet st.confirmedPayments uid).isSome = true
    · obtain ⟨u, hu⟩ := Option.isSome_iff_exists.mp (hcr hc)
      simp [checkPayment2, regStatus2, hc, hu, pollAnswer2, specPollAnswer]
    · have hc' : (mapGet st.confirmedPayments uid).isSome = false := by simpa using hc
      cases hu : mapGet st.registrations uid with
      | none =>
        simp [checkPayment2, regStatus2, hc', hu, pollAnswer2, specPollAnswer]
      | some u =>
        rcases hps u hu hc' with hnone | hfail
        · cases ho : u.orderId <;>
            simp [checkPayment2, regStatus2, hc', hu, hnone, ho, jsOr, pollAnswer2,
              specPollAnswer]
        · simp [checkPayment2, regStatus2, hc', hu, hfail, jsOr, pollAnswer2, specPollAnswer]

theorem c9_check_payment_read_only_mapping_witness :
    ((checkPayment1 "r1" paidState1).1 = paidState1 ∧
     pollAnswer1 (checkPayment1 "r1" paidState1).2 =
       some (specPollAnswer (regStatus1 paidState1 "r1"))) ∧
    ((checkPayment2 "u1" paidState2).1 = paidState2 ∧
     pollAnswer2 (checkPayment2 "u1" paidState2).2 =
       some (specPollAnswer (regStatus2 paidState2 "u1"))) :=
  ⟨c9_check_payment_read_only_mapping.1 paidState1 "r1" (by decide) (fun _ => by decide),
   c9_check_payment_read_only_mapping.2 paidState2 "u1" (fun _ => by decide)
     (fun u _ hc => absurd hc (by decide))⟩
